import Mathlib

/-!
Shallow embedding of the cryptocheck bot (`bot.py`): candlestick pattern
detection, the signal gate of `analyze_symbol`, the spike detector, and the
BTC alert cooldown of `monitor_bitcoin`, together with theorems settling the
specification claims.  Prices, volumes and wall-clock times are modelled as
exact rationals.
-/

/-- One OHLCV bar, as the per-row dictionaries `bot.py` works with
(`row['open']` is called `op` because `open` is reserved in Lean). -/
structure Candle where
  op : Rat
  high : Rat
  low : Rat
  close : Rat
  volume : Rat
  deriving DecidableEq

/-- Policy constants of `bot.py` (lines 26-39). -/
def NUM_CANDLES : Nat := 60

def VOLUME_MULTIPLIER : Rat := 12/10

def PRICE_CHANGE_THRESHOLD : Rat := 8/10

def STD_MULTIPLIER : Rat := 1

def ALERT_COOLDOWN : Rat := 900

def ADX_THRESHOLD : Rat := 25

/-- Doji sub-kinds returned by `identify_doji_type`. -/
inductive DojiType
  | gravestone
  | dragonfly
  | longLegged
  | standard
  deriving DecidableEq

/-- Pin-bar kinds returned by `identify_pin_bar`. -/
inductive PinBar
  | bullish_pin
  | bearish_pin
  deriving DecidableEq

/-- `identify_doji_type` (bot.py lines 69-104) with its default thresholds
`body_threshold = 0.05`, `gravestone_threshold = dragonfly_threshold = 0.7`.
The source computes `candle_range = high - low`, `body_size = abs(cl - op)`,
`upper_shadow = high - max(op, cl)`, `lower_shadow = min(op, cl) - low`;
those expressions are inlined below.  The third conjunct of the gravestone
and dragonfly guards repeats the first, exactly as in the source. -/
def identify_doji_type (row : Candle) : Option DojiType :=
  if row.high - row.low = 0 then none
  else if (5/100) * (row.high - row.low) < |row.close - row.op| then none
  else if min row.op row.close - row.low ≤ (1/10) * (row.high - row.low) ∧
          (7/10) * (row.high - row.low) ≤ row.high - max row.op row.close ∧
          min row.op row.close - row.low ≤ (1/10) * (row.high - row.low) then
    some DojiType.gravestone
  else if row.high - max row.op row.close ≤ (1/10) * (row.high - row.low) ∧
          (7/10) * (row.high - row.low) ≤ min row.op row.close - row.low ∧
          row.high - max row.op row.close ≤ (1/10) * (row.high - row.low) then
    some DojiType.dragonfly
  else if (3/10) * (row.high - row.low) ≤ row.high - max row.op row.close ∧
          (3/10) * (row.high - row.low) ≤ min row.op row.close - row.low then
    some DojiType.longLegged
  else some DojiType.standard

/-- `identify_pin_bar` (bot.py lines 106-137) with its default thresholds
`body_max_ratio = 0.25` and `tail_min_ratio = 0.7`.  The bullish branch
additionally requires `cl > op` and the bearish branch `cl < op`, exactly as
in the source. -/
def identify_pin_bar (row : Candle) : Option PinBar :=
  if row.high - row.low = 0 then none
  else if (25/100) * (row.high - row.low) < |row.close - row.op| then none
  else if (7/10) * (row.high - row.low) ≤ min row.op row.close - row.low ∧
          row.high - max row.op row.close ≤ (1/10) * (row.high - row.low) ∧
          row.op < row.close then
    some PinBar.bullish_pin
  else if (7/10) * (row.high - row.low) ≤ row.high - max row.op row.close ∧
          min row.op row.close - row.low ≤ (1/10) * (row.high - row.low) ∧
          row.close < row.op then
    some PinBar.bearish_pin
  else none

/-- `is_big_green_candle` (bot.py lines 221-230) with default
`threshold = 2.0`: guard against a zero open price, then test
`(close - open) / open * 100 >= threshold`. -/
def is_big_green_candle (row : Candle) : Bool :=
  if row.op = 0 then false
  else decide ((2 : Rat) ≤ (row.close - row.op) / row.op * 100)

/-- `is_price_rise_above_threshold` (bot.py lines 232-245) with default
`threshold = 2.0`: `false` when fewer than two rows, `false` when the
previous close is zero (the division guard), otherwise test whether the
close-to-close percent change reaches the threshold. -/
def is_price_rise_above_threshold (df : List Candle) : Bool :=
  match df.reverse with
  | cur :: prev :: _ =>
      if prev.close = 0 then false
      else decide ((2 : Rat) ≤ (cur.close - prev.close) / prev.close * 100)
  | _ => false

/-- The cooldown gate of `monitor_bitcoin` (bot.py lines 402-420): given the
stored `last_alert_time` and the current `time.time()`, the alert is admitted
iff at least `ALERT_COOLDOWN` seconds elapsed; on admission the marker is set
to the current time, on rejection the marker is left as it was. -/
def admitAlert (last_alert_time current_time : Rat) : Bool × Rat :=
  if ALERT_COOLDOWN ≤ current_time - last_alert_time then (true, current_time)
  else (false, last_alert_time)

/-- Signal directions: no signal, a long entry, or a short entry. -/
inductive Direction
  | none
  | long
  | short
  deriving DecidableEq

/-- The last-row indicator values that the entry gate of `analyze_symbol`
reads (bot.py lines 443-452): the RSI (possibly absent, as
`df['rsi'].iloc[-1] if 'rsi' in df.columns else None`), the MACD line and its
signal line, the ADX, and the two directional-movement lines. -/
structure IndRow where
  rsi : Option Rat
  macd : Rat
  macd_signal : Rat
  adx : Rat
  dip : Rat
  din : Rat
  deriving DecidableEq

/-- The check `rsi_val is not None and rsi_val > t` of `analyze_symbol`. -/
def rsiAbove (o : Option Rat) (t : Rat) : Bool :=
  match o with
  | some r => decide (t < r)
  | none => false

/-- The check `rsi_val is not None and rsi_val < t` of `analyze_symbol`. -/
def rsiBelow (o : Option Rat) (t : Rat) : Bool :=
  match o with
  | some r => decide (r < t)
  | none => false

/-- `df['MACD'].iloc[-1] > df['MACD_signal'].iloc[-1]` (bot.py line 481). -/
def macdUp (ind : IndRow) : Bool := decide (ind.macd_signal < ind.macd)

/-- `df['MACD'].iloc[-1] < df['MACD_signal'].iloc[-1]` (bot.py line 495). -/
def macdDown (ind : IndRow) : Bool := decide (ind.macd < ind.macd_signal)

/-- `df['ADX'].iloc[-1] > ADX_THRESHOLD` (bot.py lines 482, 496). -/
def adxStrong (ind : IndRow) : Bool := decide (ADX_THRESHOLD < ind.adx)

/-- `df['DIp'].iloc[-1] > df['DIN'].iloc[-1]` (bot.py line 483). -/
def diUp (ind : IndRow) : Bool := decide (ind.din < ind.dip)

/-- `df['DIp'].iloc[-1] < df['DIN'].iloc[-1]` (bot.py line 497). -/
def diDown (ind : IndRow) : Bool := decide (ind.dip < ind.din)

/-- The directional outcome of the entry gate of `analyze_symbol`
(bot.py lines 479-507).  A long signal is produced only inside the branch
`pin_bar == "bullish_pin" and rsi_val is not None and rsi_val > 30` when all
of the MACD, ADX and DI confirmations hold, a short signal only inside the
mirrored bearish branch; every other path of the function produces a
non-directional message. -/
def signalDirection (pin_bar : Option PinBar) (ind : IndRow) : Direction :=
  if pin_bar = some PinBar.bullish_pin ∧ rsiAbove ind.rsi 30 then
    if macdUp ind ∧ adxStrong ind ∧ diUp ind then Direction.long
    else Direction.none
  else if pin_bar = some PinBar.bearish_pin ∧ rsiBelow ind.rsi 70 then
    if macdDown ind ∧ adxStrong ind ∧ diDown ind then Direction.short
    else Direction.none
  else Direction.none

/-- The candidate direction implied by a pin-bar pattern: bullish pin implies
a long candidate, bearish pin a short candidate. -/
def candidateDir : PinBar → Direction
  | PinBar.bullish_pin => Direction.long
  | PinBar.bearish_pin => Direction.short

/-- The four confirmation conditions that the entry gate of `analyze_symbol`
tests for a pin-bar candidate, in source order: the oscillator (RSI) gate,
the MACD-versus-signal comparison, the ADX threshold, and the
directional-movement comparison. -/
def confConditions (pin_bar : Option PinBar) (ind : IndRow) : List Bool :=
  match pin_bar with
  | some PinBar.bullish_pin => [rsiAbove ind.rsi 30, macdUp ind, adxStrong ind, diUp ind]
  | some PinBar.bearish_pin => [rsiBelow ind.rsi 70, macdDown ind, adxStrong ind, diDown ind]
  | none => []

/-- A scored per-timeframe verdict as the spec's ConfirmationResult. -/
structure ConfirmationResult where
  direction : Direction
  confidence : Nat
  deriving DecidableEq

/-- Modelled from the spec: the Multi-Timeframe Reconciler of spec section 4.4
has no implementation under `src/` (the source analyses a single timeframe per
symbol), so its base policy is modelled from the spec's words: accept the
long-timeframe result only when the short-timeframe result exists and agrees
on direction; disagreement or absence of either input yields direction
`none`. -/
def reconcile (shortTf longTf : Option ConfirmationResult) : ConfirmationResult :=
  match shortTf, longTf with
  | some s, some l =>
      if s.direction = l.direction then l else ⟨Direction.none, 0⟩
  | _, _ => ⟨Direction.none, 0⟩

/-- The body of the per-symbol loop of `multi_symbol_analysis_loop`
(bot.py lines 542-550): `analyze_symbol` either returns a message or raises;
the surrounding `try`/`except` logs a raised exception and the loop moves on,
so each symbol yields either its message or nothing. -/
def runSymbol (analyze : String → Except String String) (symbol : String) :
    String × Option String :=
  match analyze symbol with
  | Except.ok msg => (symbol, some msg)
  | Except.error _ => (symbol, none)

/-- One cycle of `multi_symbol_analysis_loop` (bot.py lines 540-552): every
symbol of the universe is evaluated through the per-symbol `try`/`except`. -/
def multiSymbolCycle (analyze : String → Except String String)
    (symbols : List String) : List (String × Option String) :=
  symbols.map (runSymbol analyze)

/-- The ambient mutable process state a Python call could implicitly read:
the wall clock, a random seed, and the module-level mutable globals
`last_alert_time` and `last_heartbeat_time` of bot.py. -/
structure Ambient where
  wallClock : Rat
  rngSeed : Nat
  lastAlertGlobal : Rat
  lastHeartbeatGlobal : Rat
  deriving DecidableEq

/-- `identify_doji_type` as run inside the live process: the ambient state is
in scope for every call, and the translated body makes no use of it. -/
def identify_doji_typeIn (_amb : Ambient) (row : Candle) : Option DojiType :=
  identify_doji_type row

/-- Spike kinds returned by `calculate_price_spike` / `check_spike`. -/
inductive SpikeType
  | UP
  | DOWN
  deriving DecidableEq

/-- `statistics.mean` over rationals: sum divided by length (callers below
only apply it to nonempty lists, matching the source's use). -/
def listMean (l : List Rat) : Rat := l.sum / l.length

/-- The sample variance behind `statistics.stdev`: squared deviations from
the mean divided by `n - 1`.  For a singleton list the denominator is zero
and the rational division yields 0, matching the source's
`except: change_std = 0` handler; `stdev` itself is the square root of this
value and is never materialised (see `sqrtVarLe`). -/
def sampleVariance (l : List Rat) : Rat :=
  (l.map (fun x => (x - listMean l) ^ 2)).sum / (l.length - 1 : Nat)

/-- Exact rational rendering of the comparison `d ≥ k * stdev` with
`stdev = √v`, `v ≥ 0` and `k ≥ 0`: it holds iff `d` is nonnegative and `d^2`
dominates `k^2 * v`.  The callers pass `v' = STD_MULTIPLIER^2 * variance`,
so `sqrtVarLe v' d` is precisely the source's
`d >= STD_MULTIPLIER * change_std`. -/
def sqrtVarLe (v d : Rat) : Bool := decide (0 ≤ d ∧ v ≤ d ^ 2)

/-- The closes of `candles[:-1]`, as `calculate_price_spike` collects them. -/
def priorCloses (candles : List Candle) : List Rat :=
  (candles.dropLast).map Candle.close

/-- The consecutive percent changes
`(close[i] - close[i-1]) / close[i-1] * 100` of a close series
(bot.py lines 259-262). -/
def priceChanges : List Rat → List Rat
  | a :: b :: rest => ((b - a) / a * 100) :: priceChanges (b :: rest)
  | _ => []

/-- The per-candle percent changes of `candles[:-1]`. -/
def priorChanges (candles : List Candle) : List Rat :=
  priceChanges (priorCloses candles)

/-- `candles[-1]['close']` (0 when the list is empty; callers guard). -/
def lastClose (candles : List Candle) : Rat :=
  match candles.getLast? with
  | some c => c.close
  | none => 0

/-- `candles[-2]['close']` (0 when absent; callers guard). -/
def prevClose (candles : List Candle) : Rat :=
  match (candles.dropLast).getLast? with
  | some c => c.close
  | none => 0

/-- `candles[-1].get('volume', 0)` (bot.py line 282). -/
def lastVolume (candles : List Candle) : Rat :=
  match candles.getLast? with
  | some c => c.volume
  | none => 0

/-- `(current_close - previous_close) / previous_close * 100`
(bot.py line 270). -/
def currentChange (candles : List Candle) : Rat :=
  (lastClose candles - prevClose candles) / prevClose candles * 100

/-- `calculate_volume_threshold` (bot.py lines 251-253): the mean volume of
`candles[:-1]` scaled by `VOLUME_MULTIPLIER`. -/
def calculate_volume_threshold (candles : List Candle) : Rat :=
  listMean ((candles.dropLast).map Candle.volume) * VOLUME_MULTIPLIER

/-- The UP branch guard of `calculate_price_spike` (bot.py line 272):
`current_change >= PRICE_CHANGE_THRESHOLD` and
`current_change - avg_change >= STD_MULTIPLIER * change_std`. -/
def upSpikeGuard (candles : List Candle) : Bool :=
  decide (PRICE_CHANGE_THRESHOLD ≤ currentChange candles) &&
  sqrtVarLe (STD_MULTIPLIER ^ 2 * sampleVariance (priorChanges candles))
    (currentChange candles - listMean (priorChanges candles))

/-- The DOWN branch guard of `calculate_price_spike` (bot.py line 274):
`current_change <= -PRICE_CHANGE_THRESHOLD` and
`avg_change - current_change >= STD_MULTIPLIER * change_std`. -/
def downSpikeGuard (candles : List Candle) : Bool :=
  decide (currentChange candles ≤ -PRICE_CHANGE_THRESHOLD) &&
  sqrtVarLe (STD_MULTIPLIER ^ 2 * sampleVariance (priorChanges candles))
    (listMean (priorChanges candles) - currentChange candles)

/-- `calculate_price_spike` (bot.py lines 255-276): with fewer than two
closes before the last candle it returns `(0, None)`; otherwise it returns
the latest close-to-close percent change together with `UP`, `DOWN` or no
spike verdict according to the two branch guards. -/
def calculate_price_spike (candles : List Candle) : Rat × Option SpikeType :=
  if (priorCloses candles).length < 2 then (0, Option.none)
  else
    (currentChange candles,
      if upSpikeGuard candles then some SpikeType.UP
      else if downSpikeGuard candles then some SpikeType.DOWN
      else Option.none)

/-- `calculate_price_spike` as run inside the live process: the ambient state
is in scope for every call, and the translated body makes no use of it. -/
def calculate_price_spikeIn (_amb : Ambient) (candles : List Candle) :
    Rat × Option SpikeType :=
  calculate_price_spike candles

/-- `check_spike` (bot.py lines 278-292): with fewer than `NUM_CANDLES + 1`
candles it reports no spike; otherwise it reports the price-spike verdict
only when the last candle's volume strictly exceeds the volume threshold. -/
def check_spike (candles : List Candle) : Option SpikeType × Rat :=
  if candles.length < NUM_CANDLES + 1 then (Option.none, 0)
  else
    if calculate_volume_threshold candles < lastVolume candles ∧
        (calculate_price_spike candles).2.isSome then
      ((calculate_price_spike candles).2, (calculate_price_spike candles).1)
    else (Option.none, (calculate_price_spike candles).1)

/-- A 61-candle window whose first 60 closes are flat at 100 with volume 10
and whose last candle closes at 101 with volume 13: a concrete qualifying
up-spike input. -/
def demoCandles : List Candle :=
  List.replicate 60 ⟨100, 100, 100, 100, 10⟩ ++ [⟨100, 101, 100, 101, 13⟩]

/-- A flat bar (`high = low`), used to witness the zero-range guards. -/
def flatRow : Candle := ⟨1, 3, 3, 2, 0⟩

/-- A bar with zero open price, used to witness the division guard of
`is_big_green_candle`. -/
def zeroOpenRow : Candle := ⟨0, 2, 1, 1, 0⟩

/-- A bar with zero close, used to witness the division guard of
`is_price_rise_above_threshold`. -/
def zeroCloseRow : Candle := ⟨1, 2, 1, 0, 0⟩

/-- An ordinary bar used as the final row in the division-guard witness. -/
def plainRow : Candle := ⟨1, 2, 1, 1, 0⟩

/-- Claim C2, counterexample: with the claimed default window of 1800
seconds, two admissions 1000 seconds apart must yield `true` then `false`;
the code admits both, because `ALERT_COOLDOWN` is 900, not 1800. -/
theorem C2_counterexample :
    (admitAlert 0 10000).1 = true ∧ (admitAlert 0 10000).2 = 10000 ∧
    (admitAlert 10000 11000).1 = true ∧ ((11000 : Rat) - 10000 < 1800) := by
  norm_num [admitAlert, ALERT_COOLDOWN]

/-- Claim C2 (amended): with the code's window `ALERT_COOLDOWN = 900`
seconds (not the claimed 1800) and its single global last-alert marker, an
admission succeeds iff at least 900 seconds elapsed since the last admitted
alert, the current time is recorded on admission, and two admissions within
the window yield `true` then `false` while a third after the window elapses
yields `true` again. -/
theorem C2_cooldown_amended (last t0 t1 t2 : Rat)
    (h0 : 900 ≤ t0 - last) (h1 : t1 - t0 < 900) (h2 : 900 ≤ t2 - t0) :
    ((admitAlert last t0).1 = true ↔ ALERT_COOLDOWN ≤ t0 - last) ∧
    (admitAlert last t0).2 = t0 ∧
    (admitAlert (admitAlert last t0).2 t1).1 = false ∧
    (admitAlert (admitAlert (admitAlert last t0).2 t1).2 t2).1 = true := by
  have e0 : admitAlert last t0 = (true, t0) := by
    unfold admitAlert ALERT_COOLDOWN
    rw [if_pos h0]
  have e1 : admitAlert t0 t1 = (false, t0) := by
    unfold admitAlert ALERT_COOLDOWN
    rw [if_neg (not_le.mpr h1)]
  have e2 : admitAlert t0 t2 = (true, t2) := by
    unfold admitAlert ALERT_COOLDOWN
    rw [if_pos h2]
  have b0 : (admitAlert last t0).1 = true := by rw [e0]
  have s0 : (admitAlert last t0).2 = t0 := by rw [e0]
  have s1 : (admitAlert t0 t1).2 = t0 := by rw [e1]
  rw [s0, s1, e1, e2]
  exact ⟨iff_of_true b0 h0, rfl, rfl, rfl⟩

/-- Claim C2 witness: the amended cooldown sequence at the concrete times
0, 1000, 1500, 2000. -/
theorem C2_cooldown_witness :
    (900 ≤ (1000 : Rat) - 0) ∧ ((1500 : Rat) - 1000 < 900) ∧
    (900 ≤ (2000 : Rat) - 1000) ∧
    (admitAlert (admitAlert (admitAlert 0 1000).2 1500).2 2000).1 = true :=
  ⟨by norm_num, by norm_num, by norm_num,
    (C2_cooldown_amended 0 1000 1500 2000 (by norm_num) (by norm_num)
      (by norm_num)).2.2.2⟩

/-- Claim C8: a rejected admission leaves the stored cooldown marker (the
global `last_alert_time`) unchanged; only an accepted emission updates it. -/
theorem C8_reject_no_write (last now : Rat)
    (h : (admitAlert last now).1 = false) :
    (admitAlert last now).2 = last := by
  by_cases hc : ALERT_COOLDOWN ≤ now - last
  · exfalso
    unfold admitAlert at h
    rw [if_pos hc] at h
    simp at h
  · unfold admitAlert
    rw [if_neg hc]

/-- Claim C8 witness: a rejected admission 100 seconds after the marker
leaves the marker at its old value. -/
theorem C8_reject_no_write_witness :
    (admitAlert 0 100).1 = false ∧ (admitAlert 0 100).2 = 0 :=
  ⟨by norm_num [admitAlert, ALERT_COOLDOWN],
    C8_reject_no_write 0 100 (by norm_num [admitAlert, ALERT_COOLDOWN])⟩

/-- Claim C4, counterexample: a long candidate with oscillator value 40
(below the claimed threshold of 50) still satisfies the code's oscillator
condition, and the full gate even emits the long signal. -/
theorem C4_counterexample :
    rsiAbove (some 40) 30 = true ∧ ¬((50 : Rat) ≤ 40) ∧
    signalDirection (some PinBar.bullish_pin) ⟨some 40, 2, 1, 30, 5, 1⟩ =
      Direction.long := by
  norm_num [signalDirection, rsiAbove, rsiBelow, macdUp, macdDown, adxStrong,
    diUp, diDown, ADX_THRESHOLD]

/-- Claim C4 (amended): the oscillator condition of the entry gate is
satisfied exactly when the oscillator value is strictly above 30 for long
candidates, and strictly below 70 for short candidates (not 50/50). -/
theorem C4_oscillator_amended (r : Rat) :
    (rsiAbove (some r) 30 = true ↔ 30 < r) ∧
    (rsiBelow (some r) 70 = true ↔ r < 70) := by
  constructor
  · simp [rsiAbove]
  · simp [rsiBelow]

/-- Claim C5: a bar whose high equals its low produces no doji verdict and
no pin-bar verdict, and the conditions guarded by a zero divisor (zero open
price in `is_big_green_candle`, zero previous close in
`is_price_rise_above_threshold`) evaluate as not satisfied instead of
propagating an undefined value. -/
theorem C5_flat_safe (row r prev cur : Candle) (l : List Candle)
    (h : row.high = row.low) (hop : r.op = 0) (hpc : prev.close = 0) :
    identify_doji_type row = Option.none ∧
    identify_pin_bar row = Option.none ∧
    is_big_green_candle r = false ∧
    is_price_rise_above_threshold (l ++ [prev, cur]) = false := by
  refine ⟨?_, ?_, ?_, ?_⟩
  · simp [identify_doji_type, h]
  · simp [identify_pin_bar, h]
  · simp [is_big_green_candle, hop]
  · simp [is_price_rise_above_threshold, List.reverse_append, hpc]

/-- Claim C5 witness: the zero-range and zero-divisor guards on concrete
bars. -/
theorem C5_flat_safe_witness :
    flatRow.high = flatRow.low ∧ zeroOpenRow.op = 0 ∧
    zeroCloseRow.close = 0 ∧
    (identify_doji_type flatRow = Option.none ∧
     identify_pin_bar flatRow = Option.none ∧
     is_big_green_candle zeroOpenRow = false ∧
     is_price_rise_above_threshold ([] ++ [zeroCloseRow, plainRow]) = false) :=
  ⟨rfl, rfl, rfl,
    C5_flat_safe flatRow zeroOpenRow zeroCloseRow plainRow [] rfl rfl rfl⟩

/-- Claim C6: the multi-timeframe reconciliation (modelled from the spec,
section 4.4) is conservative: either it returns direction `none` — as it
does on disagreement or on absence of either input — or both inputs are
present and each individually carries the returned direction. -/
theorem C6_reconcile_conservative (s l : Option ConfirmationResult) :
    (reconcile s l).direction = Direction.none ∨
    (∃ rs rl, s = some rs ∧ l = some rl ∧
      rs.direction = (reconcile s l).direction ∧
      rl.direction = (reconcile s l).direction) := by
  cases s with
  | none => left; cases l <;> rfl
  | some rs =>
    cases l with
    | none => left; rfl
    | some rl =>
      by_cases h : rs.direction = rl.direction
      · right
        exact ⟨rs, rl, rfl, rfl, by simp [reconcile, h], by simp [reconcile, h]⟩
      · left
        simp [reconcile, h]

/-- `runSymbol` always reports for the symbol it was given, whether the
analysis returned a message or raised. -/
theorem runSymbol_fst (analyze : String → Except String String) (s : String) :
    (runSymbol analyze s).1 = s := by
  unfold runSymbol
  cases analyze s <;> rfl

/-- Claim C7: in one cycle of the multi-symbol loop every symbol of the
universe is evaluated, whatever exceptions the per-symbol analyses raise: a
raised exception is absorbed by the per-symbol handler and never aborts the
cycle for the remaining symbols. -/
theorem C7_per_symbol_isolation (analyze : String → Except String String)
    (symbols : List String) :
    (multiSymbolCycle analyze symbols).map Prod.fst = symbols := by
  induction symbols with
  | nil => rfl
  | cons s rest ih =>
    simp only [multiSymbolCycle, List.map_cons] at ih ⊢
    rw [runSymbol_fst, ih]

/-- Claim C9: pattern and spike computation is a deterministic pure function
of the input bars: its result does not depend on the ambient process state
(wall clock, randomness, module globals), so two calls on the same input
yield identical outputs. -/
theorem C9_determinism (a b : Ambient) (row : Candle) (cs : List Candle) :
    identify_doji_typeIn a row = identify_doji_typeIn b row ∧
    calculate_price_spikeIn a cs = calculate_price_spikeIn b cs :=
  ⟨rfl, rfl⟩

/-- Claim C1, counterexample: a bullish pin candidate whose oscillator, ADX
and directional-movement conditions are satisfied but whose MACD condition
fails — exactly 3 of the 4 conditions — yields no directional signal,
although the claim (threshold 3 of 4) requires a long signal. -/
theorem C1_counterexample :
    (confConditions (some PinBar.bullish_pin)
        ⟨some 50, 1, 2, 30, 5, 1⟩).count true = 3 ∧
    signalDirection (some PinBar.bullish_pin) ⟨some 50, 1, 2, 30, 5, 1⟩ =
      Direction.none := by
  norm_num [confConditions, signalDirection, rsiAbove, macdUp, adxStrong,
    diUp, ADX_THRESHOLD, List.count_cons, List.count_nil]

/-- Claim C1 (amended): for a pin-bar candidate the entry gate emits the
candidate direction iff all four confirmation conditions are satisfied (the
code conjoins them, so the effective confidence threshold is 4, not 3), and
with fewer than four satisfied conditions the direction is none. -/
theorem C1_confirmation_amended (pin_bar : PinBar) (ind : IndRow) :
    (signalDirection (some pin_bar) ind = candidateDir pin_bar ↔
      (confConditions (some pin_bar) ind).count true = 4) ∧
    ((confConditions (some pin_bar) ind).count true < 4 →
      signalDirection (some pin_bar) ind = Direction.none) := by
  cases pin_bar
  case bullish_pin =>
    cases h1 : rsiAbove ind.rsi 30 <;> cases h2 : macdUp ind <;>
      cases h3 : adxStrong ind <;> cases h4 : diUp ind <;>
      simp_all [signalDirection, confConditions, candidateDir,
        List.count_cons, List.count_nil]
  case bearish_pin =>
    cases h1 : rsiBelow ind.rsi 70 <;> cases h2 : macdDown ind <;>
      cases h3 : adxStrong ind <;> cases h4 : diDown ind <;>
      simp_all [signalDirection, confConditions, candidateDir,
        List.count_cons, List.count_nil]

/-- Claim C1 witness: with all four conditions satisfied the gate emits the
candidate (long) direction. -/
theorem C1_confirmation_witness :
    signalDirection (some PinBar.bullish_pin) ⟨some 50, 2, 1, 30, 5, 1⟩ =
      candidateDir PinBar.bullish_pin :=
  (C1_confirmation_amended PinBar.bullish_pin ⟨some 50, 2, 1, 30, 5, 1⟩).1.mpr
    (by norm_num [confConditions, rsiAbove, macdUp, adxStrong, diUp,
      ADX_THRESHOLD, List.count_cons, List.count_nil])

/-- Claim C3, counterexample: a bar with range 10, body 0.3, lower shadow
9.2 and upper shadow 0.5 meets every ratio condition of the claim with the
lower shadow dominant, yet because its close (9.2) is below its open (9.5)
the detector returns no pin bar at all — the close/open comparison is not
irrelevant. -/
theorem C3_counterexample :
    ((10 : Rat) - 0 ≠ 0) ∧
    |(46/5 : Rat) - 19/2| ≤ (25/100) * ((10 : Rat) - 0) ∧
    (7/10) * ((10 : Rat) - 0) ≤ min (19/2 : Rat) (46/5) - 0 ∧
    (10 : Rat) - max (19/2 : Rat) (46/5) ≤ (1/10) * ((10 : Rat) - 0) ∧
    identify_pin_bar ⟨19/2, 10, 0, 46/5, 0⟩ = Option.none := by
  norm_num [identify_pin_bar, abs_le, lt_abs, min_def, max_def]

/-- Claim C3 (amended): a bar is classified as a bullish pin iff its range
is nonzero, its body is at most 25 percent of the range, its lower shadow is
at least 70 percent of the range, its upper shadow is at most 10 percent of
the range, and additionally its close is above its open; a bearish pin
requires the mirrored shadow conditions and additionally close below open.
The close/open comparison is part of the rule, contrary to the claim. -/
theorem C3_pin_bar_amended (row : Candle) :
    (identify_pin_bar row = some PinBar.bullish_pin ↔
      (row.high - row.low ≠ 0 ∧
       |row.close - row.op| ≤ (25/100) * (row.high - row.low) ∧
       (7/10) * (row.high - row.low) ≤ min row.op row.close - row.low ∧
       row.high - max row.op row.close ≤ (1/10) * (row.high - row.low) ∧
       row.op < row.close)) ∧
    (identify_pin_bar row = some PinBar.bearish_pin ↔
      (row.high - row.low ≠ 0 ∧
       |row.close - row.op| ≤ (25/100) * (row.high - row.low) ∧
       (7/10) * (row.high - row.low) ≤ row.high - max row.op row.close ∧
       min row.op row.close - row.low ≤ (1/10) * (row.high - row.low) ∧
       row.close < row.op)) := by
  unfold identify_pin_bar
  split_ifs with h1 h2 h3 h4
  · simp [h1]
  · have hb : ¬(|row.close - row.op| ≤ (25/100) * (row.high - row.low)) :=
      not_le.mpr h2
    simp [hb]
  · obtain ⟨h3a, h3b, h3c⟩ := h3
    refine ⟨iff_of_true rfl ⟨h1, not_lt.mp h2, h3a, h3b, h3c⟩,
      iff_of_false (by simp) ?_⟩
    rintro ⟨-, -, -, -, hlt⟩
    exact lt_asymm h3c hlt
  · obtain ⟨h4a, h4b, h4c⟩ := h4
    refine ⟨iff_of_false (by simp) ?_,
      iff_of_true rfl ⟨h1, not_lt.mp h2, h4a, h4b, h4c⟩⟩
    rintro ⟨-, -, -, -, hlt⟩
    exact lt_asymm h4c hlt
  · refine ⟨iff_of_false (by simp) ?_, iff_of_false (by simp) ?_⟩
    · rintro ⟨-, -, ha, hb, hc⟩
      exact h3 ⟨ha, hb, hc⟩
    · rintro ⟨-, -, ha, hb, hc⟩
      exact h4 ⟨ha, hb, hc⟩

/-- The close series of `candles[:-1]` has one element fewer than the
candle list. -/
theorem priorCloses_length (candles : List Candle) :
    (priorCloses candles).length = candles.length - 1 := by
  simp [priorCloses]

/-- The UP branch guard, unfolded into its arithmetic content. -/
theorem upSpikeGuard_iff (candles : List Candle) :
    upSpikeGuard candles = true ↔
      (PRICE_CHANGE_THRESHOLD ≤ currentChange candles ∧
       0 ≤ currentChange candles - listMean (priorChanges candles) ∧
       STD_MULTIPLIER ^ 2 * sampleVariance (priorChanges candles) ≤
         (currentChange candles - listMean (priorChanges candles)) ^ 2) := by
  simp [upSpikeGuard, sqrtVarLe, and_assoc]

/-- The DOWN branch guard, unfolded into its arithmetic content. -/
theorem downSpikeGuard_iff (candles : List Candle) :
    downSpikeGuard candles = true ↔
      (currentChange candles ≤ -PRICE_CHANGE_THRESHOLD ∧
       0 ≤ listMean (priorChanges candles) - currentChange candles ∧
       STD_MULTIPLIER ^ 2 * sampleVariance (priorChanges candles) ≤
         (listMean (priorChanges candles) - currentChange candles) ^ 2) := by
  simp [downSpikeGuard, sqrtVarLe, and_assoc]

/-- Claim C10: `check_spike` reports no spike on fewer than
`NUM_CANDLES + 1 = 61` candles, and otherwise reports UP exactly when the
last volume strictly exceeds `VOLUME_MULTIPLIER` times the mean prior volume
and the last close-to-close percent change reaches
`PRICE_CHANGE_THRESHOLD` while exceeding the mean of the prior changes by at
least `STD_MULTIPLIER` standard deviations (stated via the squared form
`dev ≥ 0 ∧ dev^2 ≥ STD_MULTIPLIER^2 * variance`, the exact rational
rendering of the standard-deviation comparison), and DOWN exactly in the
mirrored case of a negative qualifying change. -/
theorem C10_check_spike (candles : List Candle) :
    (candles.length < NUM_CANDLES + 1 →
      check_spike candles = (Option.none, 0)) ∧
    ((check_spike candles).1 = some SpikeType.UP ↔
      (NUM_CANDLES + 1 ≤ candles.length ∧
       calculate_volume_threshold candles < lastVolume candles ∧
       PRICE_CHANGE_THRESHOLD ≤ currentChange candles ∧
       0 ≤ currentChange candles - listMean (priorChanges candles) ∧
       STD_MULTIPLIER ^ 2 * sampleVariance (priorChanges candles) ≤
         (currentChange candles - listMean (priorChanges candles)) ^ 2)) ∧
    ((check_spike candles).1 = some SpikeType.DOWN ↔
      (NUM_CANDLES + 1 ≤ candles.length ∧
       calculate_volume_threshold candles < lastVolume candles ∧
       currentChange candles ≤ -PRICE_CHANGE_THRESHOLD ∧
       0 ≤ listMean (priorChanges candles) - currentChange candles ∧
       STD_MULTIPLIER ^ 2 * sampleVariance (priorChanges candles) ≤
         (listMean (priorChanges candles) - currentChange candles) ^ 2)) := by
  by_cases hlen : candles.length < NUM_CANDLES + 1
  · have hcs : check_spike candles = (Option.none, 0) := by
      unfold check_spike
      rw [if_pos hlen]
    refine ⟨fun _ => hcs, ?_, ?_⟩
    · rw [hcs]
      exact iff_of_false (by simp) (by rintro ⟨hge, -⟩; omega)
    · rw [hcs]
      exact iff_of_false (by simp) (by rintro ⟨hge, -⟩; omega)
  · have hlen61 : NUM_CANDLES + 1 ≤ candles.length := not_lt.mp hlen
    have hg : ¬((priorCloses candles).length < 2) := by
      rw [priorCloses_length]
      unfold NUM_CANDLES at hlen61
      omega
    have hps : calculate_price_spike candles =
        (currentChange candles,
          if upSpikeGuard candles then some SpikeType.UP
          else if downSpikeGuard candles then some SpikeType.DOWN
          else Option.none) := by
      unfold calculate_price_spike
      rw [if_neg hg]
    have hcs : check_spike candles =
        (if calculate_volume_threshold candles < lastVolume candles ∧
            (calculate_price_spike candles).2.isSome = true then
          ((calculate_price_spike candles).2, (calculate_price_spike candles).1)
        else (Option.none, (calculate_price_spike candles).1)) := by
      unfold check_spike
      rw [if_neg hlen]
    by_cases hv : calculate_volume_threshold candles < lastVolume candles
    · by_cases hu : upSpikeGuard candles = true
      · have h2 : (calculate_price_spike candles).2 = some SpikeType.UP := by
          rw [hps]
          simp [hu]
        have hval : check_spike candles =
            (some SpikeType.UP, currentChange candles) := by
          rw [hcs, if_pos ⟨hv, by rw [h2]; rfl⟩, h2, hps]
        refine ⟨fun hlt => absurd hlt hlen, ?_, ?_⟩
        · rw [hval]
          exact iff_of_true rfl
            ⟨hlen61, hv, (upSpikeGuard_iff candles).mp hu⟩
        · rw [hval]
          refine iff_of_false (by simp) ?_
          rintro ⟨-, -, hdown, -, -⟩
          have hup := ((upSpikeGuard_iff candles).mp hu).1
          have hcontra : PRICE_CHANGE_THRESHOLD ≤ -PRICE_CHANGE_THRESHOLD :=
            le_trans hup hdown
          norm_num [PRICE_CHANGE_THRESHOLD] at hcontra
      · rw [Bool.not_eq_true] at hu
        by_cases hd : downSpikeGuard candles = true
        · have h2 : (calculate_price_spike candles).2 = some SpikeType.DOWN := by
            rw [hps]
            simp [hu, hd]
          have hval : check_spike candles =
              (some SpikeType.DOWN, currentChange candles) := by
            rw [hcs, if_pos ⟨hv, by rw [h2]; rfl⟩, h2, hps]
          refine ⟨fun hlt => absurd hlt hlen, ?_, ?_⟩
          · rw [hval]
            refine iff_of_false (by simp) ?_
            rintro ⟨-, -, hc, hdd, he⟩
            have : upSpikeGuard candles = true :=
              (upSpikeGuard_iff candles).mpr ⟨hc, hdd, he⟩
            rw [hu] at this
            exact Bool.false_ne_true this
          · rw [hval]
            exact iff_of_true rfl
              ⟨hlen61, hv, (downSpikeGuard_iff candles).mp hd⟩
        · rw [Bool.not_eq_true] at hd
          have h2 : (calculate_price_spike candles).2 = Option.none := by
            rw [hps]
            simp [hu, hd]
          have hval : check_spike candles =
              (Option.none, currentChange candles) := by
            rw [hcs, if_neg ?_, hps]
            rintro ⟨-, hs⟩
            rw [h2] at hs
            exact Bool.false_ne_true hs
          refine ⟨fun hlt => absurd hlt hlen, ?_, ?_⟩
          · rw [hval]
            refine iff_of_false (by simp) ?_
            rintro ⟨-, -, hc, hdd, he⟩
            have : upSpikeGuard candles = true :=
              (upSpikeGuard_iff candles).mpr ⟨hc, hdd, he⟩
            rw [hu] at this
            exact Bool.false_ne_true this
          · rw [hval]
            refine iff_of_false (by simp) ?_
            rintro ⟨-, -, hc, hdd, he⟩
            have : downSpikeGuard candles = true :=
              (downSpikeGuard_iff candles).mpr ⟨hc, hdd, he⟩
            rw [hd] at this
            exact Bool.false_ne_true this
    · have hval : check_spike candles =
          (Option.none, (calculate_price_spike candles).1) := by
        rw [hcs, if_neg ?_]
        rintro ⟨hvv, -⟩
        exact hv hvv
      refine ⟨fun hlt => absurd hlt hlen, ?_, ?_⟩
      · rw [hval]
        exact iff_of_false (by simp) (by rintro ⟨-, hvv, -⟩; exact hv hvv)
      · rw [hval]
        exact iff_of_false (by simp) (by rintro ⟨-, hvv, -⟩; exact hv hvv)

/-- The consecutive percent changes of a constant close series are all
zero. -/
theorem priceChanges_replicate (n : Nat) (a : Rat) :
    priceChanges (List.replicate (n + 1) a) = List.replicate n 0 := by
  induction n with
  | zero => rfl
  | succ m ih =>
    have h2 : List.replicate (m + 2) a = a :: a :: List.replicate m a := by
      simp [List.replicate_succ]
    have h1 : a :: List.replicate m a = List.replicate (m + 1) a := by
      simp [List.replicate_succ]
    rw [h2]
    rw [show priceChanges (a :: a :: List.replicate m a) =
        ((a - a) / a * 100) :: priceChanges (a :: List.replicate m a) from rfl]
    rw [h1, ih]
    simp [List.replicate_succ]

/-- Claim C10 witness: on a 61-candle window with flat prior closes at 100,
prior volumes 10, final close 101 and final volume 13 the spike check
reports UP. -/
theorem C10_check_spike_witness :
    (check_spike demoCandles).1 = some SpikeType.UP := by
  have hlen : demoCandles.length = 61 := by
    simp [demoCandles]
  have hvt : calculate_volume_threshold demoCandles = 12 := by
    unfold calculate_volume_threshold demoCandles
    rw [List.dropLast_concat, List.map_replicate]
    norm_num [listMean, List.sum_replicate, VOLUME_MULTIPLIER]
  have hlv : lastVolume demoCandles = 13 := by
    unfold lastVolume demoCandles
    rw [List.getLast?_concat]
  have hlc : lastClose demoCandles = 101 := by
    unfold lastClose demoCandles
    rw [List.getLast?_concat]
  have hpc : prevClose demoCandles = 100 := by
    unfold prevClose demoCandles
    rw [List.dropLast_concat]
    rw [show List.replicate 60 (⟨100, 100, 100, 100, 10⟩ : Candle) =
        List.replicate 59 ⟨100, 100, 100, 100, 10⟩ ++
          [⟨100, 100, 100, 100, 10⟩] from List.replicate_succ' 59 _]
    rw [List.getLast?_concat]
  have hcc : currentChange demoCandles = 1 := by
    unfold currentChange
    rw [hlc, hpc]
    norm_num
  have hch : priorChanges demoCandles = List.replicate 59 0 := by
    unfold priorChanges priorCloses demoCandles
    rw [List.dropLast_concat, List.map_replicate]
    exact priceChanges_replicate 59 100
  have hmean : listMean (priorChanges demoCandles) = 0 := by
    rw [hch]
    norm_num [listMean, List.sum_replicate]
  have hvar : sampleVariance (priorChanges demoCandles) = 0 := by
    rw [hch]
    unfold sampleVariance
    norm_num [listMean, List.sum_replicate, List.map_replicate]
  refine (C10_check_spike demoCandles).2.1.mpr ⟨?_, ?_, ?_, ?_, ?_⟩
  · rw [hlen]
    norm_num [NUM_CANDLES]
  · rw [hvt, hlv]
    norm_num
  · rw [hcc]
    norm_num [PRICE_CHANGE_THRESHOLD]
  · rw [hcc, hmean]
    norm_num
  · rw [hcc, hmean, hvar]
    norm_num


